import Mathlib

/-!
Shallow embedding of the job lifecycle engine of the aits-print-server
repository (src/job_queue.py, the job-handling endpoints of src/server.py,
and the remote polling loop of src/odoo_client.py), together with theorems
settling the specification claims about it.

The SQLite table `print_jobs` is modelled as a `List Job`; each SQL
statement of `job_queue.py` becomes a pure function on that list.
Timestamps are integers (CURRENT_TIMESTAMP is passed in as a `now`
parameter); `timedelta(days=retention_days)` is modelled with one day as
the unit of time.
-/

namespace PrintServer

/-- Job status values used by `job_queue.py`. -/
inductive Status where
  | pending
  | processing
  | completed
  | failed
  | cancelled
deriving DecidableEq, Repr

/-- One row of the `print_jobs` table (see `_init_db` in src/job_queue.py). -/
structure Job where
  jobId : String
  printerName : String
  documentName : String
  document : String
  copies : Nat
  options : Option String
  status : Status
  errorMessage : Option String
  retryCount : Nat
  createdAt : Int
  updatedAt : Int
  completedAt : Option Int
deriving DecidableEq, Repr

/-- The configuration dictionary entries the queue reads with
`config.get(key, default)`: `max_retries` (default 3) and
`retention_days` (default 7). -/
structure Config where
  maxRetries : Option Nat
  retentionDays : Option Int

/-- `JobQueue.submit_job`: INSERT a new row with status `pending` and the
table defaults (`retry_count = 0`, timestamps CURRENT_TIMESTAMP). The
generated uuid and the clock are passed in as parameters. Returns the
new table and the job id. -/
def submit_job (db : List Job) (printer_name document document_name : String)
    (copies : Nat) (options : Option String) (job_id : String) (now : Int) :
    List Job × String :=
  (db ++ [{ jobId := job_id
            printerName := printer_name
            documentName := document_name
            document := document
            copies := copies
            options := options
            status := Status.pending
            errorMessage := none
            retryCount := 0
            createdAt := now
            updatedAt := now
            completedAt := none }], job_id)

/-- `JobQueue.get_job`: SELECT the row with the given id. -/
def get_job (db : List Job) (job_id : String) : Option Job :=
  db.find? (fun j => j.jobId == job_id)

/-- `JobQueue.get_jobs`: SELECT rows, optionally filtered by status,
ORDER BY created_at DESC, LIMIT `limit`. -/
def get_jobs (db : List Job) (status : Option Status) (limit : Nat) : List Job :=
  let rows : List Job := match status with
    | some s => db.filter (fun j => j.status == s)
    | none => db
  (rows.insertionSort (fun a b => b.createdAt ≤ a.createdAt)).take limit

/-- The effect of the UPDATE in `JobQueue.update_job_status` on a single
row: when the id matches, set status, `updated_at` and `error_message`;
the `completed` branch of the Python code additionally sets
`completed_at`. -/
def updateStatusRow (job_id : String) (status : Status)
    (error_message : Option String) (now : Int) (j : Job) : Job :=
  if j.jobId = job_id then
    if status = Status.completed then
      { j with status := status, updatedAt := now,
               completedAt := some now, errorMessage := error_message }
    else
      { j with status := status, updatedAt := now,
               errorMessage := error_message }
  else j

/-- `JobQueue.update_job_status`: UPDATE the row with the given id
(`error_message` defaults to NULL in the Python signature, modelled by
passing `none`). -/
def update_job_status (db : List Job) (job_id : String) (status : Status)
    (error_message : Option String) (now : Int) : List Job :=
  db.map (updateStatusRow job_id status error_message now)

/-- The effect of the UPDATE in `JobQueue.increment_retry` on a single row. -/
def incrementRetryRow (job_id : String) (now : Int) (j : Job) : Job :=
  if j.jobId = job_id then
    { j with retryCount := j.retryCount + 1, updatedAt := now }
  else j

/-- `JobQueue.increment_retry`: UPDATE retry_count = retry_count + 1 for
the row with the given id. -/
def increment_retry (db : List Job) (job_id : String) (now : Int) : List Job :=
  db.map (incrementRetryRow job_id now)

/-- The WHERE clause of `JobQueue.cancel_job`: the row is affected when the
id matches and the status is `pending` or `failed`. -/
def cancelCond (job_id : String) (j : Job) : Prop :=
  j.jobId = job_id ∧ (j.status = Status.pending ∨ j.status = Status.failed)

instance (job_id : String) (j : Job) : Decidable (cancelCond job_id j) := by
  unfold cancelCond; infer_instance

/-- The effect of the UPDATE in `JobQueue.cancel_job` on a single row. -/
def cancelRow (job_id : String) (now : Int) (j : Job) : Job :=
  if cancelCond job_id j then
    { j with status := Status.cancelled, updatedAt := now }
  else j

/-- `JobQueue.cancel_job`: one conditional UPDATE; returns the new table
and `cursor.rowcount > 0`, i.e. whether some row satisfied the WHERE
clause. -/
def cancel_job (db : List Job) (job_id : String) (now : Int) :
    List Job × Bool :=
  (db.map (cancelRow job_id now), db.any (fun j => decide (cancelCond job_id j)))

/-- Statuses deleted by the retention sweep (the IN list of
`JobQueue.cleanup_old_jobs`). -/
def isTerminal (s : Status) : Bool :=
  match s with
  | Status.completed => true
  | Status.failed => true
  | Status.cancelled => true
  | _ => false

/-- `JobQueue.cleanup_old_jobs`: DELETE rows whose status is terminal and
whose `created_at` is before `now - retention_days`, with
`retention_days = config.get('retention_days', 7)`. -/
def cleanup_old_jobs (cfg : Config) (db : List Job) (now : Int) : List Job :=
  let retention_days := cfg.retentionDays.getD 7
  let cutoff := now - retention_days
  db.filter (fun j => !(isTerminal j.status && decide (j.createdAt < cutoff)))

/-- The write the dispatch loop performs to claim a fetched job
(`self.update_job_status(job_id, 'processing')` at the top of the per-job
body of `_process_queue`): an unconditional UPDATE of the row with that
id, with no error message. -/
def dispatchClaimWrite (db : List Job) (job_id : String) (now : Int) : List Job :=
  update_job_status db job_id Status.processing none now

/-- Modelled from the spec: the conditional `pending → processing` write
described in section 4.2 step 2 of the spec, which is supposed to succeed
only while the row is still `pending`, and to report whether it
succeeded. This definition exists to be compared with the code write
`dispatchClaimWrite`; it is not what `job_queue.py` does. -/
def dispatchClaimWriteSpec (db : List Job) (job_id : String) (now : Int) :
    List Job × Bool :=
  (db.map (fun j =>
      if j.jobId = job_id ∧ j.status = Status.pending then
        { j with status := Status.processing, updatedAt := now,
                 errorMessage := none }
      else j),
   db.any (fun j => decide (j.jobId = job_id ∧ j.status = Status.pending)))

/-- The per-job body of the loop in `JobQueue._process_queue`, threading
the table and the list of job ids handed to
`printer_manager.print_document` (the print backend is a boolean
function, as the spec treats it). Mirrors the Python code: unconditional
claim write, one print attempt, then on failure `increment_retry` and the
snapshot-based retry decision `retry_count = job['retry_count'] + 1`. -/
def processOneJob (backend : Job → Bool) (max_retries : Nat) (now : Int)
    (acc : List Job × List String) (job : Job) : List Job × List String :=
  let db1 := dispatchClaimWrite acc.1 job.jobId now
  let printed := acc.2 ++ [job.jobId]
  if backend job then
    (update_job_status db1 job.jobId Status.completed none now, printed)
  else
    let db2 := increment_retry db1 job.jobId now
    let retry_count := job.retryCount + 1
    if max_retries ≤ retry_count then
      (update_job_status db2 job.jobId Status.failed
        (some ("Failed after " ++ toString retry_count ++ " attempts")) now,
       printed)
    else
      (update_job_status db2 job.jobId Status.pending
        (some ("Retry " ++ toString retry_count ++ "/" ++ toString max_retries))
        now,
       printed)

/-- One iteration of the while-loop of `JobQueue._process_queue`: fetch up
to 10 pending jobs with `get_jobs`, process each in order, then run
`cleanup_old_jobs`. Returns the new table and the ids sent to the
printer backend, in the order they were sent. -/
def processQueueCycle (backend : Job → Bool) (cfg : Config) (db : List Job)
    (now : Int) : List Job × List String :=
  let max_retries := cfg.maxRetries.getD 3
  let pending_jobs := get_jobs db (some Status.pending) 10
  let r := pending_jobs.foldl (processOneJob backend max_retries now) (db, [])
  (cleanup_old_jobs cfg r.1 now, r.2)

/-! ### HTTP layer (src/server.py) -/

/-- The JSON body of a POST to `/api/v1/print`, as read with
`data.get(...)`: a field that is absent from the JSON object is `none`.
(`data['document']` holds the base64 payload as a string.) -/
structure SubmitRequest where
  printer_name : Option String
  document : Option String
  document_name : Option String
  copies : Option Nat
  options : Option String

/-- Outcome of the submit endpoint: HTTP 201 with the job id, or
HTTP 400 with a validation error. -/
inductive SubmitResult where
  | created (job_id : String)
  | badRequest (error : String)
deriving DecidableEq, Repr

/-- `submit_print_job` in src/server.py: check each of
`['printer_name', 'document', 'document_name']` with `field not in data`,
returning 400 at the first absent field; otherwise insert the job via
`submit_job` (copies defaulting to 1) and return 201 with the id. -/
def submitPrintJob (db : List Job) (req : SubmitRequest) (job_id : String)
    (now : Int) : SubmitResult × List Job :=
  match req.printer_name with
  | none => (SubmitResult.badRequest "Missing required field: printer_name", db)
  | some pn =>
    match req.document with
    | none => (SubmitResult.badRequest "Missing required field: document", db)
    | some doc =>
      match req.document_name with
      | none =>
        (SubmitResult.badRequest "Missing required field: document_name", db)
      | some dn =>
        let r := submit_job db pn doc dn (req.copies.getD 1) req.options
          job_id now
        (SubmitResult.created r.2, r.1)

/-- The JSON body and HTTP code the cancel endpoint replies with. -/
structure CancelHttpResponse where
  success : Bool
  message : Option String
  error : Option String
  code : Nat
deriving DecidableEq, Repr

/-- `cancel_job` in src/server.py (route `/api/v1/jobs/<job_id>/cancel`):
call `job_queue.cancel_job` and translate its boolean into a 200 reply,
or a single 404 reply used for every failure. -/
def serverCancelJob (db : List Job) (job_id : String) (now : Int) :
    CancelHttpResponse × List Job :=
  let r := cancel_job db job_id now
  if r.2 then
    ({ success := true, message := some "Job cancelled successfully",
       error := none, code := 200 }, r.1)
  else
    ({ success := false, message := none,
       error := some "Job not found or cannot be cancelled", code := 404 }, r.1)

/-! ### Remote reconciliation loop (src/odoo_client.py) -/

/-- One job returned by the remote pending-jobs endpoint, with the fields
`OdooClient._process_job` reads (the alternative field names
`content`/`file_data` and `document_url` are collapsed into one field
each; a field absent from the JSON is `none`). -/
structure RemoteJob where
  id : Nat
  printer_name : Option String
  document_type : String
  document_data : Option String
  content_url : Option String

/-- The environment `_process_job` interacts with: the names of the local
printers, and the outcomes of the remote claim call, of a content
download (`none` meaning the download failed), and of the local print. -/
structure RemoteEnv where
  printers : List String
  claimOk : Nat → Bool
  download : String → Option String
  printOk : Nat → Bool

/-- The externally visible calls `_process_job` makes, in order: the
claim POST, the content download GET, the hand-off to the printer
backend, and the status-update POST back to the remote source. -/
inductive REvent where
  | claim (jobId : Nat)
  | fetch (url : String)
  | print (jobId : Nat) (printerName : String)
  | statusUpdate (jobId : Nat) (status : String) (error : Option String)
deriving DecidableEq, Repr

/-- The print-and-report tail of `_process_job`: call the backend, then
POST `completed`, or `failed` with message `Print failed`. -/
def printAndReport (env : RemoteEnv) (jobId : Nat) (printerName : String) :
    List REvent :=
  if env.printOk jobId then
    [REvent.print jobId printerName, REvent.statusUpdate jobId "completed" none]
  else
    [REvent.print jobId printerName,
     REvent.statusUpdate jobId "failed" (some "Print failed")]

/-- `OdooClient._process_job`, as the sequence of remote/backend calls it
performs for one job. Mirrors the Python control flow: falsy
`printer_name` falls back to the first local printer or fails the job
remotely with `No printer available` (before any claim); then the claim
call, skipping the job entirely unless it succeeds; then content
resolution (URL download first, inline base64 otherwise, `ValueError`
into a failed status update when neither yields content); then print and
status report. -/
def processRemoteJob (env : RemoteEnv) (job : RemoteJob) : List REvent :=
  let pn : Option String :=
    if job.printer_name.getD "" = "" then env.printers.head?
    else job.printer_name
  match pn with
  | none => [REvent.statusUpdate job.id "failed" (some "No printer available")]
  | some printerName =>
    if env.claimOk job.id then
      REvent.claim job.id ::
        (let url := (job.content_url.getD "")
         if url ≠ "" then
           REvent.fetch url ::
             (match env.download url with
              | none =>
                [REvent.statusUpdate job.id "failed"
                  (some "Failed to get job content")]
              | some content =>
                if content = "" then
                  [REvent.statusUpdate job.id "failed"
                    (some "Failed to get job content")]
                else printAndReport env job.id printerName)
         else if job.document_data.getD "" ≠ "" then
           printAndReport env job.id printerName
         else
           [REvent.statusUpdate job.id "failed"
             (some "No document data in job")])
    else [REvent.claim job.id]

/-! ### Concrete objects used in scenarios, witnesses and counterexamples -/

/-- A freshly submitted job, as `submit_job` inserts it at time 0. -/
def j0 : Job :=
  { jobId := "J", printerName := "P", documentName := "doc.pdf",
    document := "data", copies := 1, options := none,
    status := Status.pending, errorMessage := none, retryCount := 0,
    createdAt := 0, updatedAt := 0, completedAt := none }

/-- An empty configuration dictionary: every `config.get` falls back to
its default. -/
def cfg0 : Config := { maxRetries := none, retentionDays := none }

/-- A printer backend whose every print attempt fails. -/
def failBackend : Job → Bool := fun _ => false

/-- The table after submitting `j0`. -/
def dbSub : List Job := (submit_job [] "P" "data" "doc.pdf" 1 none "J" 0).1

/-- The table after submitting `j0` and then cancelling it. -/
def dbCan : List Job := (cancel_job dbSub "J" 0).1

/-- `j0` in status `cancelled`. -/
def jCan : Job := { j0 with status := Status.cancelled }

/-- `j0` in status `processing`. -/
def jProc : Job := { j0 with status := Status.processing }

/-- `j0` after three failed dispatch attempts under the default
`max_retries = 3`. -/
def jFail : Job :=
  { j0 with status := Status.failed, retryCount := 3,
            updatedAt := 0, errorMessage := some "Failed after 3 attempts" }

/-- An older and a newer pending job, for the batch-ordering claims. -/
def jOld : Job := { j0 with jobId := "A", createdAt := 1 }

/-- See `jOld`. -/
def jNew : Job := { j0 with jobId := "B", createdAt := 2 }

/-- A remote environment with no local printers. -/
def envNoPrinters : RemoteEnv :=
  { printers := [], claimOk := fun _ => true, download := fun _ => none,
    printOk := fun _ => true }

/-- A remote environment with one printer whose claim calls all fail. -/
def envClaimFails : RemoteEnv :=
  { printers := ["P"], claimOk := fun _ => false, download := fun _ => none,
    printOk := fun _ => true }

/-- A remote job that names no printer and carries inline content. -/
def rjob0 : RemoteJob :=
  { id := 7, printer_name := none, document_type := "pdf",
    document_data := some "data", content_url := none }

/-- A submission whose three required fields are all present but empty. -/
def reqEmpty : SubmitRequest :=
  { printer_name := some "", document := some "", document_name := some "",
    copies := none, options := none }

/-! ### Helper lemmas -/

lemma errorMessage_updateStatusRow (job_id : String) (st : Status)
    (err : Option String) (now : Int) (j : Job) :
    (updateStatusRow job_id st err now j).errorMessage =
      if j.jobId = job_id then err else j.errorMessage := by
  unfold updateStatusRow
  split_ifs <;> rfl

lemma completedAt_updateStatusRow (job_id : String) (st : Status)
    (err : Option String) (now : Int) (j : Job) :
    (updateStatusRow job_id st err now j).completedAt =
      if j.jobId = job_id ∧ st = Status.completed then some now
      else j.completedAt := by
  unfold updateStatusRow
  split_ifs with h1 h2 <;> simp_all

lemma status_updateStatusRow (job_id : String) (st : Status)
    (err : Option String) (now : Int) (j : Job) :
    (updateStatusRow job_id st err now j).status =
      if j.jobId = job_id then st else j.status := by
  unfold updateStatusRow
  split_ifs <;> rfl

lemma jobId_updateStatusRow (job_id : String) (st : Status)
    (err : Option String) (now : Int) (j : Job) :
    (updateStatusRow job_id st err now j).jobId = j.jobId := by
  unfold updateStatusRow
  split_ifs <;> rfl

lemma cancel_job_snd_iff (db : List Job) (job_id : String) (now : Int) :
    (cancel_job db job_id now).2 = true ↔
      ∃ j ∈ db, j.jobId = job_id ∧
        (j.status = Status.pending ∨ j.status = Status.failed) := by
  simp [cancel_job, List.any_eq_true, cancelCond]

lemma cancel_job_fst_of_snd_false (db : List Job) (job_id : String)
    (now : Int) (h : (cancel_job db job_id now).2 = false) :
    (cancel_job db job_id now).1 = db := by
  simp only [cancel_job, List.any_eq_false, decide_eq_true_eq] at h
  simp only [cancel_job]
  induction db with
  | nil => rfl
  | cons a t ih =>
    have ha : ¬ cancelCond job_id a := h a (List.mem_cons_self a t)
    have ht := ih (fun j hj => h j (List.mem_cons_of_mem a hj))
    simp [List.map_cons, cancelRow, ha, ht]

lemma processOneJob_snd (backend : Job → Bool) (max_retries : Nat)
    (now : Int) (acc : List Job × List String) (job : Job) :
    (processOneJob backend max_retries now acc job).2 = acc.2 ++ [job.jobId] := by
  unfold processOneJob
  dsimp only
  split_ifs <;> rfl

lemma processBatch_snd (backend : Job → Bool) (max_retries : Nat) (now : Int) :
    ∀ (batch : List Job) (db : List Job) (p : List String),
      (batch.foldl (processOneJob backend max_retries now) (db, p)).2 =
        p ++ batch.map Job.jobId := by
  intro batch
  induction batch with
  | nil => intro db p; simp
  | cons a t ih =>
    intro db p
    have hstep := processOneJob_snd backend max_retries now (db, p) a
    calc (List.foldl (processOneJob backend max_retries now)
            (processOneJob backend max_retries now (db, p) a) t).2
        = (processOneJob backend max_retries now (db, p) a).2 ++
            t.map Job.jobId := by
          have := ih (processOneJob backend max_retries now (db, p) a).1
            (processOneJob backend max_retries now (db, p) a).2
          simpa using this
      _ = p ++ (a :: t).map Job.jobId := by
          simp [hstep]

instance : IsTotal Job (fun a b => b.createdAt ≤ a.createdAt) :=
  ⟨fun a b => le_total b.createdAt a.createdAt⟩

instance : IsTrans Job (fun a b => b.createdAt ≤ a.createdAt) :=
  ⟨fun _ _ _ h1 h2 => le_trans h2 h1⟩

lemma isTerminal_iff (s : Status) :
    isTerminal s = true ↔
      (s = Status.completed ∨ s = Status.failed ∨ s = Status.cancelled) := by
  cases s <;> simp [isTerminal]

/-! ### Claim theorems -/

/-- C3: `cancel_job` is a single conditional write that returns true
exactly when the table holds a row with the given id whose status is
`pending` or `failed`; a successful cancel turns that very row into the
same row with status `cancelled` (and a fresh `updated_at`), every row
not matched by the WHERE clause survives the write unchanged, and when
the call returns false — id absent, or the job `processing`, `completed`
or `cancelled` — the whole table is left unchanged. -/
theorem cancel_job_conditional_write (db : List Job) (job_id : String)
    (now : Int) :
    ((cancel_job db job_id now).2 = true ↔
      ∃ j ∈ db, j.jobId = job_id ∧
        (j.status = Status.pending ∨ j.status = Status.failed))
    ∧ ((cancel_job db job_id now).2 = false →
        (cancel_job db job_id now).1 = db)
    ∧ (∀ j ∈ db, j.jobId = job_id →
        (j.status = Status.pending ∨ j.status = Status.failed) →
        ({ j with status := Status.cancelled, updatedAt := now } : Job) ∈
          (cancel_job db job_id now).1)
    ∧ (∀ j ∈ db,
        ¬(j.jobId = job_id ∧
          (j.status = Status.pending ∨ j.status = Status.failed)) →
        j ∈ (cancel_job db job_id now).1) := by
  refine ⟨cancel_job_snd_iff db job_id now,
          cancel_job_fst_of_snd_false db job_id now, ?_, ?_⟩
  · intro j hj hid hst
    have hc : cancelCond job_id j := ⟨hid, hst⟩
    refine List.mem_map.mpr ⟨j, hj, ?_⟩
    simp [cancelRow, hc]
  · intro j hj hnc
    have hc : ¬ cancelCond job_id j := hnc
    refine List.mem_map.mpr ⟨j, hj, ?_⟩
    simp [cancelRow, hc]

/-- C3 witness: cancelling the pending job `j0` succeeds and its row
reappears as the same row in status `cancelled`, while on a table whose
only row is `processing` the call returns false and the table is
unchanged. -/
theorem cancel_job_conditional_write_witness :
    (cancel_job [j0] "J" 5).2 = true
    ∧ ({ j0 with status := Status.cancelled, updatedAt := 5 } : Job) ∈
        (cancel_job [j0] "J" 5).1
    ∧ (cancel_job [jProc] "J" 0).1 = [jProc]
    ∧ (cancel_job [jProc] "J" 0).2 = false :=
  ⟨by decide,
   (cancel_job_conditional_write [j0] "J" 5).2.2.1 j0 (by decide) (by decide)
     (Or.inl (by decide)),
   (cancel_job_conditional_write [jProc] "J" 0).2.1 (by decide),
   by decide⟩

/-- C5: for every job id and status, `update_job_status` sets
`completed_at` (to the write timestamp) on the matching row exactly when
the new status is `completed`, and leaves `completed_at` of every row
unchanged otherwise. -/
theorem update_job_status_completedAt_iff_completed (db : List Job)
    (job_id : String) (st : Status) (err : Option String) (now : Int) :
    (update_job_status db job_id st err now).map Job.completedAt =
      db.map (fun j =>
        if j.jobId = job_id ∧ st = Status.completed then some now
        else j.completedAt) := by
  induction db with
  | nil => rfl
  | cons a t ih =>
    simp only [update_job_status, List.map_cons] at *
    rw [completedAt_updateStatusRow, ih]

/-- C6: the retention sweep deletes exactly the rows whose status is
terminal (`completed`, `failed` or `cancelled`) and whose `created_at`
is strictly older than `now` minus the configured `retention_days`
(default 7); every other row — in particular every `pending` or
`processing` row, of any age — is retained. -/
theorem cleanup_deletes_exactly_old_terminal (cfg : Config) (db : List Job)
    (now : Int) (j : Job) :
    j ∈ cleanup_old_jobs cfg db now ↔
      j ∈ db ∧
        ¬((j.status = Status.completed ∨ j.status = Status.failed ∨
            j.status = Status.cancelled) ∧
          j.createdAt < now - cfg.retentionDays.getD 7) := by
  have keep : ∀ (cutoff : Int) (j : Job),
      ((!(isTerminal j.status && decide (j.createdAt < cutoff))) = true ↔
        ¬((j.status = Status.completed ∨ j.status = Status.failed ∨
            j.status = Status.cancelled) ∧ j.createdAt < cutoff)) := by
    intro cutoff j
    cases hs : j.status <;> simp [isTerminal, hs]
  rw [cleanup_old_jobs, List.mem_filter, keep]

/-- C10: every `update_job_status` write overwrites `error_message` of the
matching row with the supplied value (NULL when the caller passes none),
and in particular the `pending → processing` claim write of the dispatch
loop, which passes no message, erases whatever `Retry N/max` message a
requeued job carried. -/
theorem update_status_overwrites_error_message (db : List Job)
    (job_id : String) (st : Status) (err : Option String) (now : Int) :
    ((update_job_status db job_id st err now).map Job.errorMessage =
      db.map (fun j => if j.jobId = job_id then err else j.errorMessage))
    ∧ ((dispatchClaimWrite db job_id now).map Job.errorMessage =
      db.map (fun j => if j.jobId = job_id then none else j.errorMessage)) := by
  constructor
  · induction db with
    | nil => rfl
    | cons a t ih =>
      simp only [update_job_status, List.map_cons] at *
      rw [errorMessage_updateStatusRow, ih]
  · unfold dispatchClaimWrite
    induction db with
    | nil => rfl
    | cons a t ih =>
      simp only [update_job_status, List.map_cons] at *
      rw [errorMessage_updateStatusRow, ih]

/-- The row a job becomes when a dispatch attempt fails and the retry
budget is exhausted. -/
def retryFailedRow (j : Job) (now : Int) : Job :=
  { j with status := Status.failed, retryCount := j.retryCount + 1,
           updatedAt := now,
           errorMessage := some ("Failed after " ++
             toString (j.retryCount + 1) ++ " attempts") }

/-- The row a job becomes when a dispatch attempt fails and a retry
remains. -/
def retryRequeuedRow (j : Job) (max_retries : Nat) (now : Int) : Job :=
  { j with status := Status.pending, retryCount := j.retryCount + 1,
           updatedAt := now,
           errorMessage := some ("Retry " ++ toString (j.retryCount + 1) ++
             "/" ++ toString max_retries) }

/-- C4: when the backend print attempt for a dispatched job fails, the
dispatch loop increments `retry_count`; if the resulting count reaches
`max_retries` the job becomes `failed` with an error message naming the
attempt count, and otherwise it goes back to `pending` with a
`Retry N/max` message. In particular, under the default `max_retries = 3`
and a backend that always fails, three dispatch cycles leave a fresh job
`failed` with `retry_count = 3` and message `Failed after 3 attempts`. -/
theorem dispatch_retry_policy :
    (∀ (backend : Job → Bool) (max_retries : Nat) (now : Int) (j : Job)
        (p : List String),
      backend j = false →
      processOneJob backend max_retries now ([j], p) j =
        ((if max_retries ≤ j.retryCount + 1 then [retryFailedRow j now]
          else [retryRequeuedRow j max_retries now]),
         p ++ [j.jobId]))
    ∧ ((processQueueCycle failBackend cfg0
        (processQueueCycle failBackend cfg0
          (processQueueCycle failBackend cfg0 [j0] 0).1 0).1 0).1 = [jFail]) := by
  constructor
  · intro backend max_retries now j p h
    simp only [processOneJob, dispatchClaimWrite, update_job_status,
      increment_retry, List.map_cons, List.map_nil, h, Bool.false_eq_true,
      if_false, retryFailedRow, retryRequeuedRow]
    split_ifs with hmr <;>
      simp [updateStatusRow, incrementRetryRow]
  · decide

/-- C4 witness: instantiating the failure branch at a fresh job with the
default retry budget requeues it as `pending` with message `Retry 1/3`. -/
theorem dispatch_retry_policy_witness :
    processOneJob failBackend 3 0 ([j0], []) j0 =
      ([retryRequeuedRow j0 3 0], ["J"]) := by
  have h := dispatch_retry_policy.1 failBackend 3 0 j0 [] rfl
  simpa using h

/-- C1 (amended): the write with which the dispatch loop claims a fetched
job is unconditional — it sets the row with that id to `processing`
whatever status the row has, unlike the conditional write modelled from
the spec — and a job cancelled before the dispatch fetch is protected
only by the fetch filter: it is absent from the pending batch, nothing
is handed to the printer backend, and it stays `cancelled`. -/
theorem claimWrite_unconditional_and_cancel_scenario :
    (∀ (db : List Job) (job_id : String) (now : Int) (j : Job),
      j ∈ dispatchClaimWrite db job_id now → j.jobId = job_id →
        j.status = Status.processing)
    ∧ (∀ backend : Job → Bool,
        (processQueueCycle backend cfg0 dbCan 0).2 = [] ∧
        (processQueueCycle backend cfg0 dbCan 0).1.map Job.status =
          [Status.cancelled]) := by
  constructor
  · intro db job_id now j hj hid
    simp only [dispatchClaimWrite, update_job_status, List.mem_map] at hj
    obtain ⟨a, _, ha⟩ := hj
    rw [← ha]
    rw [← ha] at hid
    rw [jobId_updateStatusRow] at hid
    rw [status_updateStatusRow, if_pos hid]
  · intro backend
    exact ⟨rfl, rfl⟩

/-- C1 witness: the dispatch claim write applied to a table holding the
cancelled job `jCan` turns that very row into `processing`. -/
theorem claimWrite_unconditional_witness :
    ({ jCan with status := Status.processing, updatedAt := 5,
                 errorMessage := none } : Job).status = Status.processing :=
  claimWrite_unconditional_and_cancel_scenario.1 [jCan] "J" 5
    { jCan with status := Status.processing, updatedAt := 5,
                errorMessage := none }
    (by decide) (by decide)

/-- C1 counterexample: the claim write is not the conditional
`pending → processing` transition the claim describes: on a table whose
only row is already `cancelled`, the code write `dispatchClaimWrite`
turns the row into `processing`, while the conditional write modelled
from the spec leaves it `cancelled` and reports failure. -/
theorem claimWrite_conditionality_cex :
    (dispatchClaimWrite [jCan] "J" 5).map Job.status = [Status.processing] ∧
    (dispatchClaimWriteSpec [jCan] "J" 5).1.map Job.status =
      [Status.cancelled] ∧
    (dispatchClaimWriteSpec [jCan] "J" 5).2 = false := by
  decide

/-- C7 (amended): each dispatch cycle fetches its batch of up to 10
pending jobs ordered newest-first by `created_at` (`ORDER BY created_at
DESC`), and hands the batch to the printer backend in exactly that
newest-first order. -/
theorem get_jobs_sorted_newest_first_and_batch_order :
    (∀ (db : List Job) (status : Option Status) (limit : Nat),
      (get_jobs db status limit).Sorted (fun a b => b.createdAt ≤ a.createdAt))
    ∧ (∀ (backend : Job → Bool) (cfg : Config) (db : List Job) (now : Int),
        (processQueueCycle backend cfg db now).2 =
          (get_jobs db (some Status.pending) 10).map Job.jobId) := by
  constructor
  · intro db status limit
    unfold get_jobs
    exact List.Pairwise.sublist (List.take_sublist _ _)
      (List.sorted_insertionSort _ _)
  · intro backend cfg db now
    unfold processQueueCycle
    rw [processBatch_snd]
    simp

/-- C7 counterexample: with two pending jobs created at times 1 and 2,
the fetched batch is `[jNew, jOld]` — the newer job first — refuting the
oldest-first ordering the claim states. -/
theorem get_jobs_not_oldest_first_cex :
    get_jobs [jOld, jNew] (some Status.pending) 10 = [jNew, jOld] ∧
      jOld.createdAt < jNew.createdAt := by
  decide

/-- C2 (amended): for every remote job that passes printer resolution
(it names a printer, or some local printer exists to fall back on), the
claim call is the first remote interaction — it precedes any content
fetch, any print and any status update — and when the claim call fails
or is rejected the loop does nothing further for that job: no fetch, no
print, no status update. (Printer resolution happens before the claim,
and its failure path is the one status update not covered by a claim;
see the counterexample.) -/
theorem remote_claim_first (env : RemoteEnv) (job : RemoteJob)
    (h : job.printer_name.getD "" ≠ "" ∨ env.printers ≠ []) :
    (processRemoteJob env job).head? = some (REvent.claim job.id)
    ∧ (env.claimOk job.id = false →
        processRemoteJob env job = [REvent.claim job.id]) := by
  have hres : ∃ p, (if job.printer_name.getD "" = "" then env.printers.head?
      else job.printer_name) = some p := by
    split_ifs with hpn
    · rcases h with h1 | h2
      · exact absurd hpn h1
      · cases hp : env.printers with
        | nil => exact absurd hp h2
        | cons a t => exact ⟨a, rfl⟩
    · cases hj : job.printer_name with
      | none => simp [hj, Option.getD] at hpn
      | some p => exact ⟨p, rfl⟩
  obtain ⟨p, hp⟩ := hres
  constructor
  · unfold processRemoteJob
    rw [hp]
    by_cases hc : env.claimOk job.id <;> simp [hc]
  · intro hcf
    unfold processRemoteJob
    rw [hp]
    simp [hcf]

/-- C2 witness: with one local printer and a remote source that rejects
every claim, processing a remote job makes the claim call first and
nothing else. -/
theorem remote_claim_first_witness :
    (processRemoteJob envClaimFails rjob0).head? = some (REvent.claim 7)
    ∧ processRemoteJob envClaimFails rjob0 = [REvent.claim 7] :=
  ⟨(remote_claim_first envClaimFails rjob0 (Or.inr (by decide))).1,
   (remote_claim_first envClaimFails rjob0 (Or.inr (by decide))).2 rfl⟩

/-- C2 counterexample: a remote job that names no printer, processed
while no local printer exists, receives a `failed` status update with
`No printer available` although no claim call was ever made — refuting
the claim that a successful claim precedes every status update. -/
theorem remote_status_update_without_claim_cex :
    processRemoteJob envNoPrinters rjob0 =
      [REvent.statusUpdate 7 "failed" (some "No printer available")] ∧
    REvent.claim 7 ∉ processRemoteJob envNoPrinters rjob0 := by
  decide

/-- The job row created when all three required fields are present but
empty strings. -/
def jEmptyFields : Job :=
  { jobId := "J", printerName := "", documentName := "", document := "",
    copies := 1, options := none, status := Status.pending,
    errorMessage := none, retryCount := 0, createdAt := 0, updatedAt := 0,
    completedAt := none }

/-- C8 (amended): the submit endpoint rejects a request, creating no job,
exactly when one of `printer_name`, `document`, `document_name` is absent
from the JSON body (reporting the first absent field); present-but-empty
values pass validation. When all three fields are present it persists
the job through `submit_job` — the row entering the table in status
`pending`, printing deferred to the dispatch loop — and returns the job
id. -/
theorem submit_validation_presence_only (db : List Job) (req : SubmitRequest)
    (job_id : String) (now : Int) :
    (req.printer_name = none →
      submitPrintJob db req job_id now =
        (SubmitResult.badRequest "Missing required field: printer_name", db))
    ∧ (∀ pn, req.printer_name = some pn → req.document = none →
      submitPrintJob db req job_id now =
        (SubmitResult.badRequest "Missing required field: document", db))
    ∧ (∀ pn doc, req.printer_name = some pn → req.document = some doc →
      req.document_name = none →
      submitPrintJob db req job_id now =
        (SubmitResult.badRequest "Missing required field: document_name", db))
    ∧ (∀ pn doc dn, req.printer_name = some pn → req.document = some doc →
      req.document_name = some dn →
      submitPrintJob db req job_id now =
        (SubmitResult.created job_id,
         (submit_job db pn doc dn (req.copies.getD 1) req.options job_id
           now).1))
    ∧ (∀ pn doc dn copies opts,
        (submit_job db pn doc dn copies opts job_id now).1.map Job.status =
          db.map Job.status ++ [Status.pending]) := by
  refine ⟨?_, ?_, ?_, ?_, ?_⟩
  · intro h1
    simp [submitPrintJob, h1]
  · intro pn h1 h2
    simp [submitPrintJob, h1, h2]
  · intro pn doc h1 h2 h3
    simp [submitPrintJob, h1, h2, h3]
  · intro pn doc dn h1 h2 h3
    simp [submitPrintJob, submit_job, h1, h2, h3]
  · intro pn doc dn copies opts
    simp [submit_job]

/-- C8 witness: a fully populated request is persisted and acknowledged
with its job id. -/
theorem submit_validation_presence_only_witness :
    submitPrintJob []
      { printer_name := some "LaserJet", document := some "data",
        document_name := some "doc.pdf", copies := some 2, options := none }
      "J" 0 =
      (SubmitResult.created "J",
       (submit_job [] "LaserJet" "data" "doc.pdf" 2 none "J" 0).1) :=
  (submit_validation_presence_only []
      { printer_name := some "LaserJet", document := some "data",
        document_name := some "doc.pdf", copies := some 2, options := none }
      "J" 0).2.2.2.1 "LaserJet" "data" "doc.pdf" rfl rfl rfl

/-- C8 counterexample: a request whose three required fields are all
present but empty is not rejected — the endpoint creates a job (with
empty printer name, document and document name) and returns its id,
refuting the claim that empty required fields are rejected with no job
created. -/
theorem submit_accepts_empty_fields_cex :
    (submitPrintJob [] reqEmpty "J" 0).1 = SubmitResult.created "J" ∧
    (submitPrintJob [] reqEmpty "J" 0).2 = [jEmptyFields] := by
  decide

/-- The one failure reply of the cancel endpoint. -/
def cancelFailureResponse : CancelHttpResponse :=
  { success := false, message := none,
    error := some "Job not found or cannot be cancelled", code := 404 }

/-- C9 (amended): whenever the table holds no row with the given id in a
cancellable status — whether the id is absent altogether or the job is
`processing`, `completed` or `cancelled` — the cancel endpoint returns
the single combined 404 reply `Job not found or cannot be cancelled`; it
distinguishes success from failure but not the two failure causes. -/
theorem server_cancel_combined_error (db : List Job) (job_id : String)
    (now : Int)
    (h : ¬ ∃ j ∈ db, j.jobId = job_id ∧
      (j.status = Status.pending ∨ j.status = Status.failed)) :
    (serverCancelJob db job_id now).1 = cancelFailureResponse := by
  have hb : (cancel_job db job_id now).2 = false := by
    cases hb : (cancel_job db job_id now).2 with
    | false => rfl
    | true => exact absurd ((cancel_job_snd_iff db job_id now).mp hb) h
  unfold serverCancelJob
  simp [hb, cancelFailureResponse]

/-- C9 witness: cancelling an id absent from an empty table yields the
combined failure reply. -/
theorem server_cancel_combined_error_witness :
    (serverCancelJob [] "J" 0).1 = cancelFailureResponse :=
  server_cancel_combined_error [] "J" 0 (by simp)

/-- C9 counterexample: an id that does not exist and an id that exists
but is `processing` receive byte-identical replies from the cancel
endpoint — it does not distinguish `not found` from `not cancellable`. -/
theorem server_cancel_no_distinction_cex :
    get_job [] "J" = none ∧ get_job [jProc] "J" = some jProc ∧
    (serverCancelJob [] "J" 0).1 = (serverCancelJob [jProc] "J" 0).1 := by
  decide

end PrintServer
